import Mathlib

/-!
Shallow embedding of `bot.py` (RCON console bot): per-user server registry
stored in a JSON file, a conversational finite-state machine (aiogram FSM)
for the add-server wizard / one-shot command / console mode, and a one-shot
RCON client wrapped in a catch-all `try/except`.

Python dicts keyed by strings are modelled as association lists with unique
keys, preserving insertion order (assignment to an existing key updates in
place, a new key is appended, `del` removes; exactly CPython semantics under
the unique-key invariant).  The JSON file behind `load_servers`/`save_servers`
is modelled as a pure `Store` value threaded through the handlers; the failure
behaviour of the file read itself is modelled separately (`load_servers`
below) for the persistence-error claims.  Message handlers are dispatched in
aiogram registration order, which `route` reproduces literally from the
source order of the `@dp.message` decorators.
-/

/-- Python `d.get(k)` on a string-keyed dict (association list). -/
def dictGet {α : Type} : List (String × α) → String → Option α
  | [], _ => none
  | (k', v) :: rest, k => if k' = k then some v else dictGet rest k

/-- Python `d[k] = v`: update in place if the key exists, else append. -/
def dictSet {α : Type} : List (String × α) → String → α → List (String × α)
  | [], k, v => [(k, v)]
  | (k', v') :: rest, k, v =>
    if k' = k then (k, v) :: rest else (k', v') :: dictSet rest k v

/-- Python `del d[k]` (under the unique-key invariant). -/
def dictDel {α : Type} : List (String × α) → String → List (String × α)
  | [], _ => []
  | (k', v') :: rest, k => if k' = k then rest else (k', v') :: dictDel rest k

/-- ASCII whitespace stripped by Python `int(str)` before parsing. -/
def pyWs (c : Char) : Bool :=
  c == ' ' || c == '\t' || c == '\n' || c == '\x0d' || c == '\x0b' || c == '\x0c'

/-- Python `str.strip()` on both ends (ASCII whitespace). -/
def pyStripChars (cs : List Char) : List Char :=
  ((cs.dropWhile pyWs).reverse.dropWhile pyWs).reverse

/-- Digit tail of CPython integer-literal parsing: digits, with a single
underscore allowed only between two digits. -/
def pyDigitsAux : List Char → Nat → Option Nat
  | [], acc => some acc
  | '_' :: rest, acc =>
    match rest with
    | [] => none
    | c :: rest2 =>
      if c.isDigit then pyDigitsAux rest2 (acc * 10 + (c.toNat - 48)) else none
  | c :: rest, acc =>
    if c.isDigit then pyDigitsAux rest (acc * 10 + (c.toNat - 48)) else none

/-- Nonempty digit string (first char must be a digit, no leading underscore). -/
def pyDigits : List Char → Option Nat
  | [] => none
  | c :: rest => if c.isDigit then pyDigitsAux rest (c.toNat - 48) else none

/-- Python `int(text)` for ASCII inputs: strip whitespace, optional sign,
nonempty digit run (underscore separators allowed between digits); `none`
models the `ValueError` raised otherwise. -/
def pyParseInt (s : String) : Option Int :=
  match pyStripChars s.data with
  | '+' :: rest => (pyDigits rest).map (fun n => (n : Int))
  | '-' :: rest => (pyDigits rest).map (fun n => -(n : Int))
  | cs => (pyDigits cs).map (fun n => (n : Int))

/-- One stored server entry: the dict built in `process_server_password`. -/
structure ServerCfg where
  name : String
  host : String
  port : Int
  password : String
deriving DecidableEq, Repr

/-- One user's servers: profile-id (string) to server dict, insertion order. -/
abbrev ServersMap := List (String × ServerCfg)

/-- The whole persisted store: `str(user_id)` to that user's servers. -/
abbrev Store := List (String × ServersMap)

/-- The aiogram FSM state of one user: `None`, the four `AddServer` states or
the two `CommandState` states. -/
inductive FsmState where
  | idle
  | waiting_for_name
  | waiting_for_host
  | waiting_for_port
  | waiting_for_password
  | waiting_for_command
  | console_mode
deriving DecidableEq, Repr

/-- The aiogram FSM data dict of one user (`state.get_data()`); the four keys
the source ever writes.  `none` models an absent key. -/
structure FsmData where
  name : Option String := none
  host : Option String := none
  port : Option Int := none
  server_id : Option String := none
deriving DecidableEq, Repr

/-- One user's conversation session: FSM state plus FSM data.
`state.clear()` resets both. -/
structure Sess where
  fsm : FsmState
  data : FsmData
deriving DecidableEq, Repr

/-- Process-wide configuration read from the environment; `ADMIN_IDS` is the
admin allow-list.  It is in scope in every handler (a Python global). -/
structure BotConfig where
  admin_ids : List Int
deriving DecidableEq, Repr

/-- Observable outcome of handling one inbound message: the updated session,
the updated persisted store, the RCON execution performed (profile and
command), if any, and the texts sent back to the chat. -/
structure RouteResult where
  sess : Sess
  store : Store
  exec : Option (ServerCfg × String)
  replies : List String
deriving DecidableEq, Repr

/-- Source `is_admin`: membership in the `ADMIN_IDS` allow-list.  Defined in
the source and never called by any handler. -/
def is_admin (cfg : BotConfig) (user_id : Int) : Bool :=
  cfg.admin_ids.contains user_id

/-- Outcome of the file read performed by `load_servers`: the file is absent
(`open` raises `FileNotFoundError`), the read itself fails with some other
OS error (e.g. `PermissionError`), or the bytes were read and `json.load`
either parsed them or raised `JSONDecodeError`. -/
inductive ReadOutcome where
  | fileNotFound
  | readError (e : String)
  | parsed (r : Except String Store)

/-- Source `load_servers`: `try: open/json.load except FileNotFoundError:
return dict()`.  Only the missing-file case is caught; every other failure
propagates as an exception (`Except.error`). -/
def load_servers : ReadOutcome → Except String Store
  | .fileNotFound => .ok []
  | .readError e => .error e
  | .parsed (.error e) => .error e
  | .parsed (.ok d) => .ok d

/-- Source `get_user_servers`: `load_servers().get(str(user_id), dict())`
on the current (successfully loaded) store. -/
def get_user_servers (store : Store) (user_id : Int) : ServersMap :=
  (dictGet store (toString user_id)).getD []

/-- Source `save_user_servers`: reload, overwrite the user's slot, save. -/
def save_user_servers (store : Store) (user_id : Int) (user_servers : ServersMap) : Store :=
  dictSet store (toString user_id) user_servers

/-- Failure kinds of one RCON attempt, per the spec's taxonomy; `msg` is
Python's `str(e)` for the raised exception. -/
inductive RconErrorKind where
  | connect
  | auth
  | protocol
  | timeout
  | other
deriving DecidableEq, Repr

/-- An exception raised inside the `with MCRcon(...)` block. -/
structure RconError where
  kind : RconErrorKind
  msg : String
deriving DecidableEq, Repr

/-- Source `execute_rcon_command`.  The environment is modelled as the
outcomes the network would give to successive connection attempts for this
profile and command (`attempts server command i` is what attempt `i` would
produce).  The source performs exactly one attempt — the `with MCRcon(...)`
block, attempt `0` — inside a catch-all `try/except Exception` that converts
any raised exception into the returned error text; the return type `String`
(not an exception monad) reflects that no exception escapes. -/
def execute_rcon_command (server : ServerCfg) (command : String)
    (attempts : ServerCfg → String → Nat → Except RconError String) : String :=
  match attempts server command 0 with
  | .ok response => response
  | .error e => "Error executing command: " ++ e.msg

/-- Menu prompt repeated by most handlers. -/
def menu_text : String :=
  "Выберите сервер для управления или добавьте новый:"

/-- Characters before the first one satisfying `p`. -/
def takeUntil (p : Char → Bool) : List Char → List Char
  | [] => []
  | c :: rest => if p c then [] else c :: takeUntil p rest

/-- The aiogram `Command(c)` filter key of a message text: first
whitespace-separated token, bot mention stripped. -/
def command_token (text : String) : String :=
  ⟨takeUntil (· == '@') (takeUntil (· == ' ') text.data)⟩

/-- Handler `cmd_start` (`/start`): sends the welcome menu, touches neither
state nor store. -/
def cmd_start (_cfg : BotConfig) (_uid : Int) (sess : Sess) (store : Store) : RouteResult :=
  { sess := sess, store := store, exec := none,
    replies := ["👋 Добро пожаловать в Minecraft RCON Bot!"] }

/-- Handler `close_console` (`/close`): if the current state is not
`console_mode` it returns immediately (no state change, no reply);
otherwise it clears the state and shows the menu. -/
def close_console (_cfg : BotConfig) (_uid : Int) (sess : Sess) (store : Store) : RouteResult :=
  if sess.fsm ≠ .console_mode then
    { sess := sess, store := store, exec := none, replies := [] }
  else
    { sess := ⟨.idle, {}⟩, store := store, exec := none,
      replies := ["Консоль закрыта.", menu_text] }

/-- Python truthiness of `data.get('server_id')`: `None` and `""` are falsy. -/
def py_truthy : Option String → Bool
  | none => false
  | some s => s != ""

/-- Handler `handle_console_command` (any text while in `console_mode`):
resolve the stored `server_id`, execute the message text over RCON, reply
with the response; the state is never changed on any path. -/
def handle_console_command (_cfg : BotConfig) (uid : Int) (sess : Sess) (store : Store)
    (rcon : ServerCfg → String → String) (text : String) : RouteResult :=
  if py_truthy sess.data.server_id = false then
    { sess := sess, store := store, exec := none, replies := ["Ошибка: сервер не выбран."] }
  else
    match dictGet (get_user_servers store uid) (sess.data.server_id.getD "") with
    | none => { sess := sess, store := store, exec := none, replies := ["Сервер не найден."] }
    | some server =>
      { sess := sess, store := store, exec := some (server, text),
        replies := ["Ответ сервера:\n" ++ rcon server text] }

/-- Handler `cancel_command` (`/cancel`): unconditional `state.clear()`. -/
def cancel_command (_cfg : BotConfig) (_uid : Int) (_sess : Sess) (store : Store) : RouteResult :=
  { sess := ⟨.idle, {}⟩, store := store, exec := none,
    replies := ["Операция отменена.", menu_text] }

/-- Handler `handle_command` (text while in `waiting_for_command`): on the
two failure paths (`server_id` falsy, or not found in the registry) it
replies and returns WITHOUT clearing the state; only after a completed RCON
call does it `state.clear()`. -/
def handle_command (_cfg : BotConfig) (uid : Int) (sess : Sess) (store : Store)
    (rcon : ServerCfg → String → String) (text : String) : RouteResult :=
  if py_truthy sess.data.server_id = false then
    { sess := sess, store := store, exec := none, replies := ["Ошибка: сервер не выбран."] }
  else
    match dictGet (get_user_servers store uid) (sess.data.server_id.getD "") with
    | none => { sess := sess, store := store, exec := none, replies := ["Сервер не найден."] }
    | some server =>
      { sess := ⟨.idle, {}⟩, store := store, exec := some (server, text),
        replies := ["Ответ сервера:\n" ++ rcon server text, menu_text] }

/-- Handler `process_server_name`: record the name, advance to the host step. -/
def process_server_name (_cfg : BotConfig) (_uid : Int) (sess : Sess) (store : Store)
    (text : String) : RouteResult :=
  { sess := ⟨.waiting_for_host, { sess.data with name := some text }⟩, store := store,
    exec := none, replies := ["Введите IP-адрес или домен сервера:"] }

/-- Handler `process_server_host`: record the host, advance to the port step. -/
def process_server_host (_cfg : BotConfig) (_uid : Int) (sess : Sess) (store : Store)
    (text : String) : RouteResult :=
  { sess := ⟨.waiting_for_port, { sess.data with host := some text }⟩, store := store,
    exec := none, replies := ["Введите порт RCON (обычно 25575):"] }

/-- Handler `process_server_port`: `int(message.text)` — ANY parseable
integer is accepted and recorded (the source has no 1–65535 range check);
`ValueError` is answered with a re-prompt and the state is left unchanged. -/
def process_server_port (_cfg : BotConfig) (_uid : Int) (sess : Sess) (store : Store)
    (text : String) : RouteResult :=
  match pyParseInt text with
  | some p =>
    { sess := ⟨.waiting_for_password, { sess.data with port := some p }⟩, store := store,
      exec := none, replies := ["Введите пароль RCON:"] }
  | none =>
    { sess := sess, store := store, exec := none,
      replies := ["Пожалуйста, введите корректный номер порта:"] }

/-- Handler `process_server_password`: build the server dict from the
accumulated wizard data, assign id `str(len(user_servers) + 1)`, store it,
save, clear the state.  A missing wizard key would raise `KeyError`
(uncaught, so no state change and no save — the last match arm). -/
def process_server_password (_cfg : BotConfig) (uid : Int) (sess : Sess) (store : Store)
    (text : String) : RouteResult :=
  match sess.data.name, sess.data.host, sess.data.port with
  | some nm, some h, some p =>
    let user_servers := get_user_servers store uid
    let server_id := toString (user_servers.length + 1)
    let user_servers2 := dictSet user_servers server_id ⟨nm, h, p, text⟩
    { sess := ⟨.idle, {}⟩, store := save_user_servers store uid user_servers2,
      exec := none,
      replies := ["✅ Сервер \x27" ++ nm ++ "\x27 успешно добавлен!\n\n" ++ menu_text] }
  | _, _, _ => { sess := sess, store := store, exec := none, replies := [] }

/-- Callback handler `delete_server` (button press): remove the entry if
present and save; a stale id is answered softly with no store change. -/
def delete_server (_cfg : BotConfig) (uid : Int) (server_id : String) (store : Store) :
    Store × List String :=
  let user_servers := get_user_servers store uid
  match dictGet user_servers server_id with
  | none => (store, ["Сервер не найден."])
  | some server =>
    (save_user_servers store uid (dictDel user_servers server_id),
     ["Сервер \x27" ++ server.name ++ "\x27 удален.", menu_text])

/-- Message dispatch, in aiogram registration order exactly as the
`@dp.message` decorators appear in the source: `cmd_start` (line 94),
`close_console` (168), `handle_console_command` (182), `cancel_command`
(265), `handle_command` (275), then the four wizard steps (318–340).  The
first matching handler consumes the message; a text with no matching
handler is ignored. -/
def route (cfg : BotConfig) (uid : Int) (sess : Sess) (store : Store)
    (rcon : ServerCfg → String → String) (text : String) : RouteResult :=
  if command_token text = "/start" then cmd_start cfg uid sess store
  else if command_token text = "/close" then close_console cfg uid sess store
  else if sess.fsm = .console_mode then handle_console_command cfg uid sess store rcon text
  else if command_token text = "/cancel" then cancel_command cfg uid sess store
  else if sess.fsm = .waiting_for_command then handle_command cfg uid sess store rcon text
  else if sess.fsm = .waiting_for_name then process_server_name cfg uid sess store text
  else if sess.fsm = .waiting_for_host then process_server_host cfg uid sess store text
  else if sess.fsm = .waiting_for_port then process_server_port cfg uid sess store text
  else if sess.fsm = .waiting_for_password then process_server_password cfg uid sess store text
  else { sess := sess, store := store, exec := none, replies := [] }

/-! Association-list (Python dict) lemmas. -/

theorem dictGet_dictSet_self {α : Type} (d : List (String × α)) (k : String) (v : α) :
    dictGet (dictSet d k v) k = some v := by
  induction d with
  | nil => simp [dictSet, dictGet]
  | cons hd tl ih =>
    obtain ⟨k0, v0⟩ := hd
    by_cases h : k0 = k <;> simp [dictSet, dictGet, h, ih]

theorem dictGet_dictSet_ne {α : Type} (d : List (String × α)) (k k' : String) (v : α)
    (h : k' ≠ k) : dictGet (dictSet d k v) k' = dictGet d k' := by
  induction d with
  | nil => simp [dictSet, dictGet, Ne.symm h]
  | cons hd tl ih =>
    obtain ⟨k0, v0⟩ := hd
    by_cases h0 : k0 = k
    · subst h0
      simp [dictSet, dictGet, Ne.symm h]
    · simp [dictSet, dictGet, h0, ih]

theorem dictGet_dictDel_ne {α : Type} (d : List (String × α)) (k k' : String)
    (h : k' ≠ k) : dictGet (dictDel d k) k' = dictGet d k' := by
  induction d with
  | nil => simp [dictDel]
  | cons hd tl ih =>
    obtain ⟨k0, v0⟩ := hd
    by_cases h0 : k0 = k
    · subst h0
      simp [dictDel, dictGet, Ne.symm h]
    · simp [dictDel, dictGet, h0, ih]

/-! Injectivity of `toString : Int → String`, needed because the store is
keyed by `str(user_id)`: distinct user ids occupy distinct slots. -/

/-- Reference decimal rendering: digits most significant first. -/
def decRep (n : Nat) : List Char :=
  if _h : n < 10 then [Nat.digitChar n]
  else decRep (n / 10) ++ [Nat.digitChar (n % 10)]
decreasing_by exact Nat.div_lt_self (by omega) (by omega)

theorem toDigitsCore_eq_decRep (f : Nat) :
    ∀ n l, n < f → Nat.toDigitsCore 10 f n l = decRep n ++ l := by
  induction f with
  | zero => intro n l h; omega
  | succ f ih =>
    intro n l hnf
    by_cases h10 : n / 10 = 0
    · have hn : n < 10 := by
        by_contra hge
        have : 0 < n / 10 := Nat.div_pos (by omega) (by omega)
        omega
      simp only [Nat.toDigitsCore, h10, if_true]
      rw [decRep, dif_pos hn, Nat.mod_eq_of_lt hn]
      simp
    · have hpos : 0 < n := by
        by_contra hz
        have : n = 0 := by omega
        subst this
        simp at h10
      have hlt : n / 10 < n := Nat.div_lt_self hpos (by omega)
      have hn10 : ¬ n < 10 := fun hh => h10 (Nat.div_eq_of_lt hh)
      simp only [Nat.toDigitsCore, h10, if_false]
      rw [decRep, dif_neg hn10]
      rw [ih (n / 10) (Nat.digitChar (n % 10) :: l) (by omega)]
      simp

theorem toDigits_eq_decRep (n : Nat) : Nat.toDigits 10 n = decRep n := by
  have := toDigitsCore_eq_decRep (n + 1) n [] (Nat.lt_succ_self n)
  simpa [Nat.toDigits] using this

/-- Numeric value of a digit character. -/
def digVal (c : Char) : Nat := c.toNat - 48

theorem digVal_digitChar : ∀ d < 10, digVal (Nat.digitChar d) = d := by decide

theorem foldl_digVal_decRep (n : Nat) :
    ∀ a, List.foldl (fun x c => 10 * x + digVal c) a (decRep n)
      = a * 10 ^ (decRep n).length + n := by
  induction n using Nat.strong_induction_on with
  | _ n ih =>
    intro a
    by_cases h : n < 10
    · rw [decRep, dif_pos h]
      simp [List.foldl, digVal_digitChar n h]
      ring
    · rw [decRep, dif_neg h]
      have hlt : n / 10 < n := Nat.div_lt_self (by omega) (by omega)
      rw [List.foldl_append, ih (n / 10) hlt a]
      simp only [List.foldl, List.length_append, List.length_singleton]
      rw [digVal_digitChar (n % 10) (Nat.mod_lt n (by omega))]
      calc 10 * (a * 10 ^ (decRep (n / 10)).length + n / 10) + n % 10
          = a * (10 ^ (decRep (n / 10)).length * 10) + (10 * (n / 10) + n % 10) := by ring
        _ = a * 10 ^ ((decRep (n / 10)).length + 1) + n := by
            rw [Nat.div_add_mod, pow_succ]

theorem val_decRep (n : Nat) :
    List.foldl (fun x c => 10 * x + digVal c) 0 (decRep n) = n := by
  simpa using foldl_digVal_decRep n 0

theorem decRep_inj {m n : Nat} (h : decRep m = decRep n) : m = n := by
  have hm := val_decRep m
  rw [h, val_decRep n] at hm
  exact hm.symm

theorem decRep_head (n : Nat) : ∃ d t, d < 10 ∧ decRep n = Nat.digitChar d :: t := by
  induction n using Nat.strong_induction_on with
  | _ n ih =>
    by_cases h : n < 10
    · exact ⟨n, [], h, by rw [decRep, dif_pos h]⟩
    · obtain ⟨d, t, hd, ht⟩ := ih (n / 10) (Nat.div_lt_self (by omega) (by omega))
      exact ⟨d, t ++ [Nat.digitChar (n % 10)], hd, by rw [decRep, dif_neg h, ht]; simp⟩

theorem natRepr_data (n : Nat) : (Nat.repr n).data = decRep n := by
  show (List.asString (Nat.toDigits 10 n)).data = decRep n
  show Nat.toDigits 10 n = decRep n
  exact toDigits_eq_decRep n

theorem natRepr_inj {m n : Nat} (h : Nat.repr m = Nat.repr n) : m = n := by
  apply decRep_inj
  rw [← natRepr_data, ← natRepr_data, h]

theorem digitChar_ne_dash : ∀ d < 10, Nat.digitChar d ≠ '-' := by decide

theorem natRepr_data_head_ne_dash (n : Nat) (t : List Char) :
    (Nat.repr n).data ≠ '-' :: t := by
  intro h
  rw [natRepr_data] at h
  obtain ⟨d, t', hd, ht'⟩ := decRep_head n
  rw [ht'] at h
  exact digitChar_ne_dash d hd (List.cons.injEq .. ▸ h).1

theorem toString_int_inj {a b : Int} (h : toString a = toString b) : a = b := by
  cases a with
  | ofNat m =>
    cases b with
    | ofNat n =>
      have hr : Nat.repr m = Nat.repr n := h
      rw [natRepr_inj hr]
    | negSucc n =>
      exfalso
      have hr : Nat.repr m = "-" ++ Nat.repr (n + 1) := h
      have hd := congrArg String.data hr
      rw [String.data_append] at hd
      have hcons : ("-" : String).data ++ (Nat.repr (n + 1)).data
          = '-' :: (Nat.repr (n + 1)).data := rfl
      rw [hcons] at hd
      exact natRepr_data_head_ne_dash m _ hd
  | negSucc m =>
    cases b with
    | ofNat n =>
      exfalso
      have hr : Nat.repr n = "-" ++ Nat.repr (m + 1) := h.symm
      have hd := congrArg String.data hr
      rw [String.data_append] at hd
      have hcons : ("-" : String).data ++ (Nat.repr (m + 1)).data
          = '-' :: (Nat.repr (m + 1)).data := rfl
      rw [hcons] at hd
      exact natRepr_data_head_ne_dash n _ hd
    | negSucc n =>
      have hr : "-" ++ Nat.repr (m + 1) = "-" ++ Nat.repr (n + 1) := h
      have hd := congrArg String.data hr
      rw [String.data_append, String.data_append] at hd
      have hdd := List.append_cancel_left hd
      have := natRepr_inj (String.ext hdd)
      exact congrArg Int.negSucc (by omega)

theorem toString_int_ne {a b : Int} (h : a ≠ b) : toString a ≠ toString b :=
  fun hh => h (toString_int_inj hh)

/-! Registry frame lemmas. -/

theorem get_user_servers_save_self (store : Store) (uid : Int) (us : ServersMap) :
    get_user_servers (save_user_servers store uid us) uid = us := by
  unfold get_user_servers save_user_servers
  rw [dictGet_dictSet_self]
  rfl

theorem get_user_servers_save_other (store : Store) (u1 u2 : Int) (us : ServersMap)
    (h : u1 ≠ u2) :
    get_user_servers (save_user_servers store u1 us) u2 = get_user_servers store u2 := by
  unfold get_user_servers save_user_servers
  rw [dictGet_dictSet_ne _ _ _ _ (toString_int_ne (Ne.symm h))]

theorem handle_console_command_sess (cfg : BotConfig) (uid : Int) (sess : Sess)
    (store : Store) (rcon : ServerCfg → String → String) (text : String) :
    (handle_console_command cfg uid sess store rcon text).sess = sess := by
  unfold handle_console_command
  split
  · rfl
  · split <;> rfl

/-- C1 counterexample: at the port step the input "70000" is NOT rejected —
the source performs no 1–65535 range check — the state advances to the
password step, contradicting the claim that out-of-range integer text stays
at `AddingServer.Port`. -/
theorem C1_counterexample :
    (route ⟨[]⟩ 1 ⟨.waiting_for_port, {}⟩ [] (fun _ _ => "") "70000").sess.fsm
      ≠ FsmState.waiting_for_port ∧
    (route ⟨[]⟩ 1 ⟨.waiting_for_port, {}⟩ [] (fun _ _ => "") "70000").sess.fsm
      = FsmState.waiting_for_password := by
  decide

/-- C1 (amended): at the port step, text that does not parse as a Python
integer produces the re-prompt and leaves the state (and data) unchanged at
the port step, while text that parses as ANY integer — in range ("25575")
as well as out of range ("70000") — advances to the password step with that
integer recorded; no range validation is performed. -/
theorem C1_port_validation (cfg : BotConfig) (uid : Int) (sess : Sess) (store : Store)
    (text : String) :
    (pyParseInt text = none →
      process_server_port cfg uid sess store text
        = ⟨sess, store, none, ["Пожалуйста, введите корректный номер порта:"]⟩) ∧
    (∀ p : Int, pyParseInt text = some p →
      process_server_port cfg uid sess store text
        = ⟨⟨.waiting_for_password, { sess.data with port := some p }⟩, store, none,
            ["Введите пароль RCON:"]⟩) := by
  constructor
  · intro h
    simp [process_server_port, h]
  · intro p h
    simp [process_server_port, h]

/-- C1 witness: "abc" re-prompts in place and "25575" advances. -/
theorem C1_port_validation_witness :
    process_server_port ⟨[]⟩ 1 ⟨.waiting_for_port, {}⟩ [] "abc"
      = ⟨⟨.waiting_for_port, {}⟩, [], none, ["Пожалуйста, введите корректный номер порта:"]⟩ ∧
    process_server_port ⟨[]⟩ 1 ⟨.waiting_for_port, {}⟩ [] "25575"
      = ⟨⟨.waiting_for_password, { port := some 25575 }⟩, [], none, ["Введите пароль RCON:"]⟩ :=
  ⟨(C1_port_validation ⟨[]⟩ 1 ⟨.waiting_for_port, {}⟩ [] "abc").1 (by decide),
   (C1_port_validation ⟨[]⟩ 1 ⟨.waiting_for_port, {}⟩ [] "25575").2 25575 (by decide)⟩

/-- C2 counterexample: "/close" processed at the `AddingServer.Port` state
does not force Idle (`close_console` returns untouched unless in console
mode), and "/cancel" processed in `ConsoleMode` does not force Idle (the
console handler, registered earlier, consumes it as an RCON command). -/
theorem C2_counterexample :
    (route ⟨[]⟩ 1 ⟨.waiting_for_port, {}⟩ [] (fun _ _ => "") "/close").sess.fsm
      ≠ FsmState.idle ∧
    (route ⟨[]⟩ 1 ⟨.console_mode, { server_id := some "1" }⟩
        [("1", [("1", ⟨"s", "h", 25575, "p"⟩)])] (fun _ _ => "ok") "/cancel").sess.fsm
      ≠ FsmState.idle := by
  decide

/-- C2 (amended): "/cancel" forces Idle from every state EXCEPT console
mode, where it is instead forwarded to the console handler and the state
stays; "/close" forces Idle exactly from console mode and leaves the
session unchanged in every other state.  The two exits are not
interchangeable and neither clears every state. -/
theorem C2_cancel_close (cfg : BotConfig) (uid : Int) (sess : Sess) (store : Store)
    (rcon : ServerCfg → String → String) :
    (sess.fsm ≠ .console_mode →
      (route cfg uid sess store rcon "/cancel").sess = ⟨.idle, {}⟩) ∧
    (sess.fsm = .console_mode →
      (route cfg uid sess store rcon "/cancel").sess = sess) ∧
    (sess.fsm = .console_mode →
      (route cfg uid sess store rcon "/close").sess = ⟨.idle, {}⟩) ∧
    (sess.fsm ≠ .console_mode →
      (route cfg uid sess store rcon "/close").sess = sess) := by
  have hca : command_token "/cancel" = "/cancel" := by decide
  have hcl : command_token "/close" = "/close" := by decide
  have h1 : ("/cancel" : String) ≠ "/start" := by decide
  have h2 : ("/cancel" : String) ≠ "/close" := by decide
  have h3 : ("/close" : String) ≠ "/start" := by decide
  refine ⟨fun h => ?_, fun h => ?_, fun h => ?_, fun h => ?_⟩
  · simp [route, hca, h1, h2, h, cancel_command]
  · simp [route, hca, h1, h2, h, handle_console_command_sess]
  · simp [route, hcl, h3, close_console, h]
  · simp [route, hcl, h3, close_console, h]

/-- C2 witness: "/cancel" clears the port step; "/close" clears console
mode; "/close" leaves the port step untouched; "/cancel" leaves console
mode in place. -/
theorem C2_cancel_close_witness :
    (route ⟨[]⟩ 1 ⟨.waiting_for_port, {}⟩ [] (fun _ _ => "") "/cancel").sess
      = ⟨.idle, {}⟩ ∧
    (route ⟨[]⟩ 1 ⟨.console_mode, { server_id := some "1" }⟩ [] (fun _ _ => "") "/close").sess
      = ⟨.idle, {}⟩ ∧
    (route ⟨[]⟩ 1 ⟨.waiting_for_port, {}⟩ [] (fun _ _ => "") "/close").sess
      = ⟨.waiting_for_port, {}⟩ ∧
    (route ⟨[]⟩ 1 ⟨.console_mode, { server_id := some "1" }⟩ [] (fun _ _ => "") "/cancel").sess
      = ⟨.console_mode, { server_id := some "1" }⟩ :=
  ⟨(C2_cancel_close ⟨[]⟩ 1 ⟨.waiting_for_port, {}⟩ [] (fun _ _ => "")).1 (by decide),
   (C2_cancel_close ⟨[]⟩ 1 ⟨.console_mode, { server_id := some "1" }⟩ [] (fun _ _ => "")).2.2.1 rfl,
   (C2_cancel_close ⟨[]⟩ 1 ⟨.waiting_for_port, {}⟩ [] (fun _ _ => "")).2.2.2 (by decide),
   (C2_cancel_close ⟨[]⟩ 1 ⟨.console_mode, { server_id := some "1" }⟩ [] (fun _ _ => "")).2.1 rfl⟩

/-- C3 counterexample: a user in `AwaitingCommand` whose stored profile id
no longer resolves (registry empty) sends a free-text message; the handler
replies and returns WITHOUT `state.clear()`, so the state is still
`AwaitingCommand` — refuting "the state is always cleared". -/
theorem C3_counterexample :
    (route ⟨[]⟩ 5 ⟨.waiting_for_command, { server_id := some "1" }⟩ []
        (fun _ _ => "") "say hi").sess.fsm ≠ FsmState.idle := by
  decide

/-- C3 (amended): in `AwaitingCommand`, the next message reaching the
command handler clears the state to Idle exactly when the stored profile id
resolves; the RCON call cannot fail into the non-clearing path (its
catch-all returns an error string, so a failed command still clears — this
holds for every `rcon` oracle), but a falsy or non-resolving profile id
produces an error reply and leaves the state at `AwaitingCommand`. -/
theorem C3_awaiting_command (cfg : BotConfig) (uid : Int) (sess : Sess) (store : Store)
    (rcon : ServerCfg → String → String) (text : String)
    (hfsm : sess.fsm = .waiting_for_command)
    (h1 : command_token text ≠ "/start") (h2 : command_token text ≠ "/close")
    (h3 : command_token text ≠ "/cancel") :
    (py_truthy sess.data.server_id = false →
      (route cfg uid sess store rcon text).sess = sess ∧
      (route cfg uid sess store rcon text).exec = none) ∧
    (∀ sid : String, sess.data.server_id = some sid → sid ≠ "" →
      (dictGet (get_user_servers store uid) sid = none →
        (route cfg uid sess store rcon text).sess = sess ∧
        (route cfg uid sess store rcon text).exec = none) ∧
      (∀ server : ServerCfg, dictGet (get_user_servers store uid) sid = some server →
        (route cfg uid sess store rcon text).sess = ⟨.idle, {}⟩ ∧
        (route cfg uid sess store rcon text).exec = some (server, text))) := by
  have hroute : route cfg uid sess store rcon text
      = handle_command cfg uid sess store rcon text := by
    simp [route, h1, h2, h3, hfsm]
  rw [hroute]
  constructor
  · intro hfalsy
    simp [handle_command, hfalsy]
  · intro sid hsid hne
    constructor
    · intro hdg
      simp [handle_command, py_truthy, hsid, hne, hdg]
    · intro server hdg
      simp [handle_command, py_truthy, hsid, hne, hdg]

/-- C3 witness: with a resolving id the state clears to Idle and the
command runs against the stored profile. -/
theorem C3_awaiting_command_witness :
    (route ⟨[]⟩ 5 ⟨.waiting_for_command, { server_id := some "1" }⟩
        [("5", [("1", ⟨"s", "h", 25575, "p"⟩)])] (fun _ _ => "ok") "say hi").sess
      = ⟨.idle, {}⟩ ∧
    (route ⟨[]⟩ 5 ⟨.waiting_for_command, { server_id := some "1" }⟩
        [("5", [("1", ⟨"s", "h", 25575, "p"⟩)])] (fun _ _ => "ok") "say hi").exec
      = some (⟨"s", "h", 25575, "p"⟩, "say hi") :=
  ((C3_awaiting_command ⟨[]⟩ 5 ⟨.waiting_for_command, { server_id := some "1" }⟩
      [("5", [("1", ⟨"s", "h", 25575, "p"⟩)])] (fun _ _ => "ok") "say hi"
      rfl (by decide) (by decide) (by decide)).2 "1" rfl (by decide)).2
    ⟨"s", "h", 25575, "p"⟩ (by decide)

/-- C4 counterexample: a store whose content is malformed (the parse step
raises `JSONDecodeError`) makes `load_servers` propagate the exception
rather than return the empty registry — only `FileNotFoundError` is
caught. -/
theorem C4_counterexample :
    load_servers (.parsed (.error "Expecting value: line 1 column 1 (char 0)"))
      ≠ .ok [] ∧
    load_servers (.parsed (.error "Expecting value: line 1 column 1 (char 0)"))
      = .error "Expecting value: line 1 column 1 (char 0)" := by
  exact ⟨fun h => Except.noConfusion h, rfl⟩

/-- C4 (amended): only the missing-file failure is converted to an empty
registry; an OS read error or malformed content propagates the exception
out of `load_servers` (successful parses are returned unchanged). -/
theorem C4_load_failure (e : String) (d : Store) :
    load_servers .fileNotFound = .ok [] ∧
    load_servers (.readError e) = .error e ∧
    load_servers (.parsed (.error e)) = .error e ∧
    load_servers (.parsed (.ok d)) = .ok d :=
  ⟨rfl, rfl, rfl, rfl⟩

/-- C5: adding a profile via the wizard's final step and then looking up
the id the add assigned (`str(len(user_servers) + 1)`) retrieves exactly
the profile that was added, over any prior store contents. -/
theorem C5_add_get (cfg : BotConfig) (uid : Int) (store : Store) (fsm : FsmState)
    (sid : Option String) (nm hs : String) (pt : Int) (pw : String) :
    dictGet
      (get_user_servers
        (process_server_password cfg uid ⟨fsm, ⟨some nm, some hs, some pt, sid⟩⟩ store pw).store
        uid)
      (toString ((get_user_servers store uid).length + 1))
      = some ⟨nm, hs, pt, pw⟩ := by
  simp only [process_server_password]
  rw [get_user_servers_save_self]
  exact dictGet_dictSet_self ..

/-- C6: in console mode, the state leaves console mode (to Idle) exactly on
"/close"; and every free-text message (anything not consumed by the earlier
"/start" and "/close" command filters) whose stored profile id resolves is
executed against that same profile with the session left fully unchanged
(same console mode, same stored id). -/
theorem C6_console_mode (cfg : BotConfig) (uid : Int) (sess : Sess) (store : Store)
    (rcon : ServerCfg → String → String) (hc : sess.fsm = .console_mode) :
    (∀ text : String,
      ((route cfg uid sess store rcon text).sess.fsm = .idle
        ↔ command_token text = "/close")) ∧
    (∀ (text sid : String) (server : ServerCfg),
      command_token text ≠ "/start" → command_token text ≠ "/close" →
      sess.data.server_id = some sid → sid ≠ "" →
      dictGet (get_user_servers store uid) sid = some server →
      (route cfg uid sess store rcon text).sess = sess ∧
      (route cfg uid sess store rcon text).exec = some (server, text)) := by
  constructor
  · intro text
    by_cases hcl : command_token text = "/close"
    · have hns : command_token text ≠ "/start" := by rw [hcl]; decide
      simp [route, hcl, hns, close_console, hc]
    · by_cases hst : command_token text = "/start"
      · simp [route, hst, cmd_start, hc, hcl]
      · simp [route, hst, hcl, hc, handle_console_command_sess]
  · intro text sid server hst hcl hsid hne hdg
    have hroute : route cfg uid sess store rcon text
        = handle_console_command cfg uid sess store rcon text := by
      simp [route, hst, hcl, hc]
    rw [hroute]
    simp [handle_console_command, py_truthy, hsid, hne, hdg]

/-- C6 witness: with a resolving stored id, the free text "list" executes
against that profile and the session is unchanged; "/close" then reaches
Idle. -/
theorem C6_console_mode_witness :
    (route ⟨[]⟩ 1 ⟨.console_mode, { server_id := some "1" }⟩
        [("1", [("1", ⟨"s", "h", 25575, "p"⟩)])] (fun _ _ => "ok") "list").exec
      = some (⟨"s", "h", 25575, "p"⟩, "list") ∧
    ((route ⟨[]⟩ 1 ⟨.console_mode, { server_id := some "1" }⟩
        [("1", [("1", ⟨"s", "h", 25575, "p"⟩)])] (fun _ _ => "ok") "/close").sess.fsm
      = FsmState.idle) :=
  ⟨((C6_console_mode ⟨[]⟩ 1 ⟨.console_mode, { server_id := some "1" }⟩
      [("1", [("1", ⟨"s", "h", 25575, "p"⟩)])] (fun _ _ => "ok") rfl).2
      "list" "1" ⟨"s", "h", 25575, "p"⟩ (by decide) (by decide) rfl (by decide) (by decide)).2,
   ((C6_console_mode ⟨[]⟩ 1 ⟨.console_mode, { server_id := some "1" }⟩
      [("1", [("1", ⟨"s", "h", 25575, "p"⟩)])] (fun _ _ => "ok") rfl).1 "/close").mpr
      (by decide)⟩

/-- C7: per-user isolation — a wizard add or a delete performed by user u1
never changes the stored entries of a different user u2 (the store is keyed
by `str(user_id)` and rendering of distinct integers is injective). -/
theorem C7_user_isolation (cfg : BotConfig) (u1 u2 : Int) (hne : u1 ≠ u2) (store : Store) :
    (∀ (sess : Sess) (pw : String),
      get_user_servers (process_server_password cfg u1 sess store pw).store u2
        = get_user_servers store u2) ∧
    (∀ sid : String,
      get_user_servers (delete_server cfg u1 sid store).1 u2
        = get_user_servers store u2) := by
  constructor
  · intro sess pw
    obtain ⟨fsm, nm, hs, pt, sid⟩ := sess
    cases nm <;> cases hs <;> cases pt <;> simp only [process_server_password]
    exact get_user_servers_save_other store u1 u2 _ hne
  · intro sid
    unfold delete_server
    cases hdg : dictGet (get_user_servers store u1) sid with
    | none => simp [hdg]
    | some server => simp [hdg, get_user_servers_save_other store u1 u2 _ hne]

/-- C7 witness: user 1 adds a profile; user 2's slot is untouched. -/
theorem C7_user_isolation_witness :
    get_user_servers
      (process_server_password ⟨[]⟩ 1
        ⟨.waiting_for_password, ⟨some "A", some "h", some 1, none⟩⟩
        [("2", [("1", ⟨"B", "g", 2, "q"⟩)])] "pw").store 2
      = get_user_servers [("2", [("1", ⟨"B", "g", 2, "q"⟩)])] 2 :=
  (C7_user_isolation ⟨[]⟩ 1 2 (by decide) [("2", [("1", ⟨"B", "g", 2, "q"⟩)])]).1
    ⟨.waiting_for_password, ⟨some "A", some "h", some 1, none⟩⟩ "pw"

/-- C8: a single invocation reports every failure as a returned string
carrying the human-readable cause (never an exception — the result type is
a plain string on all outcomes), a success is returned verbatim, and only
attempt 0 of the environment is ever consulted: two environments that agree
on the first attempt yield identical results, so no retry occurs. -/
theorem C8_execute_once (server : ServerCfg) (command : String)
    (attempts attempts2 : ServerCfg → String → Nat → Except RconError String) :
    (∀ e : RconError, attempts server command 0 = .error e →
      execute_rcon_command server command attempts
        = "Error executing command: " ++ e.msg) ∧
    (∀ r : String, attempts server command 0 = .ok r →
      execute_rcon_command server command attempts = r) ∧
    (attempts server command 0 = attempts2 server command 0 →
      execute_rcon_command server command attempts
        = execute_rcon_command server command attempts2) := by
  refine ⟨fun e h => ?_, fun r h => ?_, fun h => ?_⟩
  · simp [execute_rcon_command, h]
  · simp [execute_rcon_command, h]
  · simp [execute_rcon_command, h]

/-- C8 witness: a connection failure surfaces as the error text with its
cause. -/
theorem C8_execute_once_witness :
    execute_rcon_command ⟨"s", "h", 25575, "p"⟩ "list"
        (fun _ _ _ => .error ⟨.connect, "Connection refused"⟩)
      = "Error executing command: Connection refused" :=
  (C8_execute_once ⟨"s", "h", 25575, "p"⟩ "list"
      (fun _ _ _ => .error ⟨.connect, "Connection refused"⟩)
      (fun _ _ _ => .error ⟨.connect, "Connection refused"⟩)).1
    ⟨.connect, "Connection refused"⟩ rfl

/-- C9: a reachable id collision — one user adds profiles A and B (ids "1"
and "2"), deletes "1", then adds C: the new id `str(len + 1)` is again "2",
which still names B, and the add overwrites B with C; so an add can change
a prior entry of the same user. -/
theorem C9_add_overwrites :
    (let cfg : BotConfig := ⟨[]⟩
     let s1 := (process_server_password cfg 7
       ⟨.waiting_for_password, ⟨some "A", some "hA", some 1, none⟩⟩ [] "pA").store
     let s2 := (process_server_password cfg 7
       ⟨.waiting_for_password, ⟨some "B", some "hB", some 2, none⟩⟩ s1 "pB").store
     let s3 := (delete_server cfg 7 "1" s2).1
     let s4 := (process_server_password cfg 7
       ⟨.waiting_for_password, ⟨some "C", some "hC", some 3, none⟩⟩ s3 "pC").store
     toString ((get_user_servers s3 7).length + 1) = "2" ∧
     dictGet (get_user_servers s3 7) "2" = some ⟨"B", "hB", 2, "pB"⟩ ∧
     dictGet (get_user_servers s4 7) "2" = some ⟨"C", "hC", 3, "pC"⟩ ∧
     dictGet (get_user_servers s4 7) "2" ≠ some ⟨"B", "hB", 2, "pB"⟩) := by
  decide

/-- C10: the admin allow-list has no effect — message routing is identical
under any two configured allow-lists; `is_admin` (the membership check) is
defined but consulted on no handler path. -/
theorem C10_allowlist_no_effect (ids1 ids2 : List Int) (uid : Int) (sess : Sess)
    (store : Store) (rcon : ServerCfg → String → String) (text : String) :
    route ⟨ids1⟩ uid sess store rcon text = route ⟨ids2⟩ uid sess store rcon text := rfl
